import Mathlib

/-
Verification of the cart state machine in `src/cart.js` (Nassim's Stitches).

The JavaScript source is shallowly embedded below.  JavaScript numbers that
can arise here (product prices, cart quantities, `parseInt` results) are
modelled by `JNum`: a rational value or `NaN`, with the JS semantics that
any comparison against `NaN` is false and arithmetic with `NaN` yields
`NaN`.  `localStorage` is modelled by `Store`, whose cart slot records the
possible parse-classes of the stored string, since
`JSON.parse(localStorage.getItem('nassimStitchesCart')) || []` behaves
differently on each class.  DOM side effects (badge text/visibility, which
helper functions an operation invokes) are modelled explicitly.
-/

namespace NassimStitches

/-- A JavaScript number as it can occur in this program: a rational value or
`NaN`.  (All numbers produced here are sums/products of integer literals or
`parseInt` results, so no infinities arise and rationals are exact.) -/
inductive JNum where
  | num (q : ℚ)
  | nan
deriving DecidableEq, Repr

/-- JS `<` : any comparison involving `NaN` is false. -/
def JNum.lt : JNum → JNum → Bool
  | JNum.num a, JNum.num b => a < b
  | _, _ => false

/-- JS `+` on numbers: `NaN` is absorbing. -/
def JNum.add : JNum → JNum → JNum
  | JNum.num a, JNum.num b => JNum.num (a + b)
  | _, _ => JNum.nan

/-- JS `*` on numbers: `NaN` is absorbing. -/
def JNum.mul : JNum → JNum → JNum
  | JNum.num a, JNum.num b => JNum.num (a * b)
  | _, _ => JNum.nan

/-- JS number-to-string coercion, as used by `el.textContent = totalItems`
(exact for the integer values that actually occur). -/
def JNum.render : JNum → String
  | JNum.num q => if q.den = 1 then toString q.num else toString q
  | JNum.nan => "NaN"

/-- The quantity shape required by the spec data model: an integer `≥ 1`. -/
def JNum.isPosInt : JNum → Bool
  | JNum.num q => decide (1 ≤ q) && decide (q.den = 1)
  | JNum.nan => false

/-- A product object as passed to `addToCart` (spec §3). -/
structure Product where
  id : String
  name : String
  price : JNum
  img : String
deriving DecidableEq, Repr

/-- A cart line: `{ ...product, quantity }` as built by `addToCart`. -/
structure CartLine where
  id : String
  name : String
  price : JNum
  img : String
  quantity : JNum
deriving DecidableEq, Repr

/-- The spec invariant: at most one cart line per distinct id. -/
def UniqueIds (cart : List CartLine) : Prop :=
  (cart.map CartLine.id).Nodup

instance (cart : List CartLine) : Decidable (UniqueIds cart) :=
  List.nodupDecidable _

/-- `cart.find(item => item.id === pid)` followed by an in-place mutation of
the found item, as done by `addToCart` (`existingItem.quantity++`) and by
`updateQuantity` (`item.quantity = quantity`): only the first line whose id
matches is rewritten. -/
def mutateFirst (pid : String) (f : CartLine → CartLine) : List CartLine → List CartLine
  | [] => []
  | item :: rest =>
      if item.id = pid then f item :: rest
      else item :: mutateFirst pid f rest

/-- `window.addToCart` (src/cart.js lines 14-26), at the level of the loaded
cart list: if a line with `product.id` exists its quantity is incremented,
otherwise `{ ...product, quantity: 1 }` is pushed at the end. -/
def addToCart (p : Product) (cart : List CartLine) : List CartLine :=
  match cart.find? (fun item => item.id == p.id) with
  | some _ =>
      mutateFirst p.id (fun item => { item with quantity := item.quantity.add (JNum.num 1) }) cart
  | none =>
      cart ++ [{ id := p.id, name := p.name, price := p.price, img := p.img, quantity := JNum.num 1 }]

/-- `updateQuantity` (src/cart.js lines 105-117), list level: `quantity < 1`
filters the line out; otherwise the first matching line's quantity is
overwritten (no match: the cart is left as loaded). -/
def updateQuantity (pid : String) (quantity : JNum) (cart : List CartLine) : List CartLine :=
  if quantity.lt (JNum.num 1) then
    cart.filter (fun item => item.id != pid)
  else
    mutateFirst pid (fun item => { item with quantity := quantity }) cart

/-- `removeItemFromCart` (src/cart.js lines 123-129), list level:
`cart.filter(item => item.id !== productId)`. -/
def removeItemFromCart (pid : String) (cart : List CartLine) : List CartLine :=
  cart.filter (fun item => item.id != pid)

/-- Classification of the string stored under the `nassimStitchesCart` key,
by how `JSON.parse(localStorage.getItem(...)) || []` treats it:
the key may be absent (`getItem` returns `null`, `JSON.parse(null)` is
`null`, falsy); hold a string `JSON.parse` rejects (it throws); hold valid
JSON of a falsy value (`null`, `false`, `0`, `""`); hold valid JSON of a
truthy non-array value; or hold a serialized cart array. -/
inductive StoredCart where
  | absent
  | invalidJson
  | falsyJson
  | nonArrayJson
  | arr (c : List CartLine)
deriving DecidableEq, Repr

/-- Outcome of evaluating `JSON.parse(localStorage.getItem('nassimStitchesCart')) || []`:
the expression throws, yields a truthy non-array value, or yields a cart list. -/
inductive GetCartResult where
  | throws
  | nonArray
  | list (c : List CartLine)
deriving DecidableEq, Repr

/-- `getCart` (src/cart.js lines 45-47). -/
def getCart : StoredCart → GetCartResult
  | StoredCart.absent => GetCartResult.list []
  | StoredCart.invalidJson => GetCartResult.throws
  | StoredCart.falsyJson => GetCartResult.list []
  | StoredCart.nonArrayJson => GetCartResult.nonArray
  | StoredCart.arr c => GetCartResult.list c

/-- The two `localStorage` keys this program uses. -/
structure Store where
  nassimStitchesCart : StoredCart
  orderDetails : Option String
deriving DecidableEq, Repr

/-- One `.cart-count` badge element: its text content and whether its
`style.display` shows it. -/
structure Badge where
  text : String
  visible : Bool
deriving DecidableEq, Repr

/-- `cart.reduce((sum, item) => sum + item.quantity, 0)` (src/cart.js line 63). -/
def cartTotalItems (cart : List CartLine) : JNum :=
  cart.foldl (fun sum item => sum.add item.quantity) (JNum.num 0)

/-- The `forEach` body of `updateCartCount` (src/cart.js lines 65-72) applied
to one badge element: when the total is `> 0` the text is set to the total
and the element shown, otherwise it is hidden with its text untouched. -/
def updateBadge (cart : List CartLine) (b : Badge) : Badge :=
  let totalItems := cartTotalItems cart
  if JNum.lt (JNum.num 0) totalItems then
    { text := totalItems.render, visible := true }
  else
    { b with visible := false }

/-- `updateCartCount` (src/cart.js lines 61-73) over all badge targets. -/
def updateCartCount (cart : List CartLine) (badges : List Badge) : List Badge :=
  badges.map (updateBadge cart)

/-- The subtotal/total pair a renderer writes (both DOM writes use the same
accumulated `subtotal` variable). -/
structure Totals where
  subtotal : JNum
  total : JNum
deriving DecidableEq, Repr

/-- The totals computed by the cart-page renderer `initCartPage`
(src/cart.js lines 209-228): `subtotal += item.price * item.quantity` over
the cart, written to both the subtotal and the total element. -/
def initCartPageTotals (cart : List CartLine) : Totals :=
  let subtotal := cart.foldl (fun subtotal item => subtotal.add (item.price.mul item.quantity)) (JNum.num 0)
  { subtotal := subtotal, total := subtotal }

/-- The totals computed by the checkout-summary renderer `initCheckoutPage`
(src/cart.js lines 144-172): on an empty cart it writes `Ksh 0` to both
displays and returns early; otherwise it accumulates the same
`subtotal += item.price * item.quantity` fold and writes it to both. -/
def initCheckoutPageTotals (cart : List CartLine) : Totals :=
  if cart.length = 0 then { subtotal := JNum.num 0, total := JNum.num 0 }
  else
    let subtotal := cart.foldl (fun subtotal item => subtotal.add (item.price.mul item.quantity)) (JNum.num 0)
    { subtotal := subtotal, total := subtotal }

/-- Spec-side description of one line's contribution: price × quantity. -/
def specLineTotal (item : CartLine) : JNum :=
  item.price.mul item.quantity

/-- Spec-side description of "the sum over all lines of price × quantity". -/
def specCartSum (cart : List CartLine) : JNum :=
  (cart.map specLineTotal).foldr JNum.add (JNum.num 0)

/-- The mutable world an operation touches: the persistence medium and (one
representative) badge element. -/
structure World where
  store : Store
  badge : Badge
deriving DecidableEq, Repr

/-- The helper routines a cart operation can invoke, recorded as a trace. -/
inductive Call where
  | saveCart
  | updateCartCount
  | initCartPage
  | initCheckoutPage
  | showToast
deriving DecidableEq, Repr

/-- `saveCart` (src/cart.js lines 53-56): serializes the in-memory cart into
the cart key, then `updateCartCount` reloads it (yielding the same list,
since `getCart (StoredCart.arr c) = list c`) and refreshes the badge. -/
def saveCartOp (cart : List CartLine) (w : World) : World :=
  { store := { w.store with nassimStitchesCart := StoredCart.arr cart },
    badge := updateBadge cart w.badge }

/-- `window.addToCart` with its effects (src/cart.js lines 14-26): load,
mutate, `saveCart` (which runs `updateCartCount`), `showToast`.  `none`
models the operation throwing (load raised, or the loaded value is not an
array so `cart.find` raises a `TypeError`). -/
def addToCartOp (p : Product) (w : World) : Option (World × List Call) :=
  match getCart w.store.nassimStitchesCart with
  | GetCartResult.list cart =>
      some (saveCartOp (addToCart p cart) w,
        [Call.saveCart, Call.updateCartCount, Call.showToast])
  | _ => none

/-- `updateQuantity` with its effects (src/cart.js lines 105-117):
load, mutate, `saveCart`, re-render the cart page. -/
def updateQuantityOp (pid : String) (q : JNum) (w : World) : Option (World × List Call) :=
  match getCart w.store.nassimStitchesCart with
  | GetCartResult.list cart =>
      some (saveCartOp (updateQuantity pid q cart) w,
        [Call.saveCart, Call.updateCartCount, Call.initCartPage])
  | _ => none

/-- `removeItemFromCart` with its effects (src/cart.js lines 123-129):
load, filter, `saveCart`, re-render the cart page, toast. -/
def removeItemFromCartOp (pid : String) (w : World) : Option (World × List Call) :=
  match getCart w.store.nassimStitchesCart with
  | GetCartResult.list cart =>
      some (saveCartOp (removeItemFromCart pid cart) w,
        [Call.saveCart, Call.updateCartCount, Call.initCartPage, Call.showToast])
  | _ => none

/-- `window.clearCart` (src/cart.js lines 31-35): `localStorage.removeItem`
on both keys, then `updateCartCount` (which loads the now-absent key as the
empty list).  It never calls `saveCart` and never throws. -/
def clearCartOp (w : World) : World × List Call :=
  ({ store := { nassimStitchesCart := StoredCart.absent, orderDetails := none },
     badge := updateBadge [] w.badge },
   [Call.updateCartCount])

/-- The removal-confirmation modal state (src/cart.js lines 239-272):
`productIdToRemove` (`none` models JS `null`), whether the modal has the
`show` class, and the persisted cart list. -/
structure GateState where
  pending : Option String
  modalShown : Bool
  cart : List CartLine
deriving DecidableEq, Repr

/-- User events handled by the removal-confirmation gate. -/
inductive GateEvent where
  | removeClick (pid : String)
  | confirmClick
  | cancelClick
  | closeClick
deriving DecidableEq, Repr

/-- The gate's event handlers (src/cart.js lines 248-272).  A remove-button
click runs `openRemoveModal(id)`.  Confirm runs
`if (productIdToRemove) removeItemFromCart(productIdToRemove)` — a JS
truthiness test, so a pending `null` or empty-string id removes nothing —
then `closeRemoveModal()`.  Cancel and the close button run
`closeRemoveModal()` only. -/
def gateStep : GateState → GateEvent → GateState
  | s, GateEvent.removeClick pid => { s with pending := some pid, modalShown := true }
  | s, GateEvent.confirmClick =>
      match s.pending with
      | some pid =>
          if pid = "" then { s with pending := none, modalShown := false }
          else { pending := none, modalShown := false, cart := removeItemFromCart pid s.cart }
      | none => { s with pending := none, modalShown := false }
  | s, GateEvent.cancelClick => { s with pending := none, modalShown := false }
  | s, GateEvent.closeClick => { s with pending := none, modalShown := false }

/-- A concrete product used in closed instances. -/
def sampleProduct : Product :=
  { id := "p1", name := "Shirt", price := JNum.num 1500, img := "x" }

/-- A concrete cart line for `sampleProduct` with quantity 1. -/
def sampleLine : CartLine :=
  { id := "p1", name := "Shirt", price := JNum.num 1500, img := "x", quantity := JNum.num 1 }

/-- A concrete badge used in closed instances. -/
def sampleBadge : Badge :=
  { text := "", visible := false }

/-- A concrete world holding an empty serialized cart. -/
def sampleWorld : World :=
  { store := { nassimStitchesCart := StoredCart.arr [], orderDetails := none },
    badge := sampleBadge }

theorem JNum.add_assoc (a b c : JNum) : (a.add b).add c = a.add (b.add c) := by
  cases a <;> cases b <;> cases c <;> simp [JNum.add]
  ring

theorem JNum.add_zero_right (a : JNum) : a.add (JNum.num 0) = a := by
  cases a <;> simp [JNum.add]

theorem JNum.add_zero_left (a : JNum) : (JNum.num 0).add a = a := by
  cases a <;> simp [JNum.add]

theorem subtotal_foldl_eq (cart : List CartLine) :
    ∀ a : JNum,
      cart.foldl (fun subtotal item => subtotal.add (item.price.mul item.quantity)) a
        = a.add (specCartSum cart) := by
  induction cart with
  | nil => intro a; simp [specCartSum, JNum.add_zero_right]
  | cons i t ih =>
      intro a
      simp only [List.foldl_cons, ih, specCartSum, List.map_cons, List.foldr_cons]
      rw [JNum.add_assoc]
      rfl

theorem mutateFirst_of_not_mem (pid : String) (f : CartLine → CartLine)
    (cart : List CartLine) (h : ∀ l ∈ cart, l.id ≠ pid) :
    mutateFirst pid f cart = cart := by
  induction cart with
  | nil => rfl
  | cons i t ih =>
      have hi : i.id ≠ pid := h i (by simp)
      simp [mutateFirst, hi]
      exact ih (fun l hl => h l (by simp [hl]))

theorem map_if_of_not_mem (pid : String) (f : CartLine → CartLine)
    (cart : List CartLine) (h : ∀ l ∈ cart, l.id ≠ pid) :
    cart.map (fun l => if l.id = pid then f l else l) = cart := by
  induction cart with
  | nil => rfl
  | cons i t ih =>
      have hi : i.id ≠ pid := h i (by simp)
      simp [hi]
      exact ih (fun l hl => h l (by simp [hl]))

theorem mutateFirst_map_id (pid : String) (f : CartLine → CartLine)
    (hf : ∀ l, (f l).id = l.id) (cart : List CartLine) :
    (mutateFirst pid f cart).map CartLine.id = cart.map CartLine.id := by
  induction cart with
  | nil => rfl
  | cons i t ih =>
      by_cases hi : i.id = pid
      · simp [mutateFirst, hi, hf]
      · simp [mutateFirst, hi, ih]

theorem mutateFirst_eq_map (pid : String) (f : CartLine → CartLine)
    (cart : List CartLine) (hu : UniqueIds cart) :
    mutateFirst pid f cart = cart.map (fun l => if l.id = pid then f l else l) := by
  induction cart with
  | nil => rfl
  | cons i t ih =>
      have hu' : UniqueIds t := (List.nodup_cons.mp hu).2
      by_cases hi : i.id = pid
      · have hfresh : ∀ l ∈ t, l.id ≠ pid := by
          intro l hl hlp
          exact (List.nodup_cons.mp hu).1 (by
            rw [← hi] at hlp
            exact (List.mem_map).mpr ⟨l, hl, hlp⟩)
        simp [mutateFirst, hi, map_if_of_not_mem pid f t hfresh]
      · simp [mutateFirst, hi, ih hu']

/-- Claim C1 counterexample: stored content that is not valid JSON does not
make `getCart` return the empty collection — `JSON.parse` throws. -/
theorem c1_counterexample :
    getCart StoredCart.invalidJson = GetCartResult.throws ∧
    getCart StoredCart.invalidJson ≠ GetCartResult.list [] := by
  exact ⟨rfl, by simp [getCart]⟩

/-- Claim C1 (amended): when the stored cart value is absent, or is valid
JSON of a falsy value, `getCart` returns the empty collection without
raising, and a serialized array loads back exactly; but stored content that
is not valid JSON makes `getCart` throw (from `JSON.parse`), valid-JSON
truthy non-array content is returned as-is rather than as an empty
collection, and on such stores the operations (here `addToCart`) error
instead of behaving as on an empty cart. -/
theorem c1_getCart_amended :
    getCart StoredCart.absent = GetCartResult.list [] ∧
    getCart StoredCart.falsyJson = GetCartResult.list [] ∧
    getCart StoredCart.invalidJson = GetCartResult.throws ∧
    getCart StoredCart.nonArrayJson = GetCartResult.nonArray ∧
    (∀ c : List CartLine, getCart (StoredCart.arr c) = GetCartResult.list c) ∧
    (∀ (p : Product) (b : Badge) (od : Option String),
      addToCartOp p { store := { nassimStitchesCart := StoredCart.invalidJson, orderDetails := od },
                      badge := b } = none) ∧
    (∀ (p : Product) (b : Badge) (od : Option String),
      addToCartOp p { store := { nassimStitchesCart := StoredCart.nonArrayJson, orderDetails := od },
                      badge := b } = none) := by
  refine ⟨rfl, rfl, rfl, rfl, fun c => rfl, fun p b od => rfl, fun p b od => rfl⟩

/-- Claim C6: the subtotal and the total computed by the cart-page renderer
and by the checkout-summary renderer are all equal to each other and to the
sum over all lines of price × quantity; neither view adds tax or shipping. -/
theorem c6_totals_agree (cart : List CartLine) :
    (initCartPageTotals cart).subtotal = (initCartPageTotals cart).total ∧
    (initCheckoutPageTotals cart).subtotal = (initCheckoutPageTotals cart).total ∧
    (initCartPageTotals cart).subtotal = (initCheckoutPageTotals cart).subtotal ∧
    (initCartPageTotals cart).subtotal = specCartSum cart := by
  have hpage : (initCartPageTotals cart).subtotal = specCartSum cart := by
    simp [initCartPageTotals, subtotal_foldl_eq, JNum.add_zero_left]
  refine ⟨rfl, ?_, ?_, hpage⟩
  · by_cases h : cart.length = 0 <;> simp [initCheckoutPageTotals, h]
  · by_cases h : cart.length = 0
    · have : cart = [] := List.length_eq_zero.mp h
      subst this
      simp [initCartPageTotals, initCheckoutPageTotals]
    · simp [initCartPageTotals, initCheckoutPageTotals, h]

theorem addToCart_of_fresh (p : Product) (cart : List CartLine)
    (h : ∀ l ∈ cart, l.id ≠ p.id) :
    addToCart p cart
      = cart ++ [{ id := p.id, name := p.name, price := p.price, img := p.img,
                   quantity := JNum.num 1 }] := by
  have hfind : cart.find? (fun item => item.id == p.id) = none :=
    List.find?_eq_none.mpr (fun l hl => by simp [h l hl])
  simp [addToCart, hfind]

theorem addToCart_of_mem (p : Product) (cart : List CartLine)
    (h : ∃ l ∈ cart, l.id = p.id) :
    addToCart p cart
      = mutateFirst p.id (fun item => { item with quantity := item.quantity.add (JNum.num 1) }) cart := by
  have hsome : (cart.find? (fun item => item.id == p.id)).isSome := by
    rw [List.find?_isSome]
    obtain ⟨l, hl, hid⟩ := h
    exact ⟨l, hl, by simp [hid]⟩
  obtain ⟨x, hx⟩ := Option.isSome_iff_exists.mp hsome
  simp [addToCart, hx]

theorem mutateFirst_append_fresh (pid : String) (f : CartLine → CartLine)
    (cart rest : List CartLine) (h : ∀ l ∈ cart, l.id ≠ pid) :
    mutateFirst pid f (cart ++ rest) = cart ++ mutateFirst pid f rest := by
  induction cart with
  | nil => rfl
  | cons i t ih =>
      have hi : i.id ≠ pid := h i (by simp)
      simp [mutateFirst, hi]
      exact ih (fun l hl => h l (by simp [hl]))

theorem addToCart_append_match (p : Product) (cart : List CartLine) (l : CartLine)
    (h : ∀ x ∈ cart, x.id ≠ p.id) (hl : l.id = p.id) :
    addToCart p (cart ++ [l])
      = cart ++ [{ l with quantity := l.quantity.add (JNum.num 1) }] := by
  have h1 : cart.find? (fun item => item.id == p.id) = none :=
    List.find?_eq_none.mpr (fun x hx => by simp [h x hx])
  have hfind : (cart ++ [l]).find? (fun item => item.id == p.id) = some l := by
    rw [List.find?_append, h1]
    simp [List.find?, hl]
  simp [addToCart, hfind]
  rw [mutateFirst_append_fresh p.id _ cart [l] h]
  simp [mutateFirst, hl]

theorem addToCart_iterate_fresh (p : Product) (cart : List CartLine)
    (h : ∀ l ∈ cart, l.id ≠ p.id) (M : ℕ) :
    (addToCart p)^[M + 1] cart
      = cart ++ [{ id := p.id, name := p.name, price := p.price, img := p.img,
                   quantity := JNum.num ((M : ℚ) + 1) }] := by
  induction M with
  | zero =>
      rw [Function.iterate_one, addToCart_of_fresh p cart h]
      norm_num
  | succ M ih =>
      rw [Function.iterate_succ_apply', ih, addToCart_append_match p cart _ h rfl]
      simp [JNum.add]

/-- Claim C2: `addToCart(product)` either increments the quantity of the
line with `product.id` by exactly 1 (other fields and other lines
untouched), or, when no line has that id, appends a new line with quantity
1 copying the product's fields; and adding the same product id N ≥ 1 times
to an id-free cart yields exactly one line for that id, with quantity N. -/
theorem c2_addToCart_spec (cart : List CartLine) (p : Product) (N : ℕ)
    (hu : UniqueIds cart) :
    ((∃ l ∈ cart, l.id = p.id) →
      addToCart p cart
        = cart.map (fun l =>
            if l.id = p.id then { l with quantity := l.quantity.add (JNum.num 1) } else l)) ∧
    ((∀ l ∈ cart, l.id ≠ p.id) →
      addToCart p cart
        = cart ++ [{ id := p.id, name := p.name, price := p.price, img := p.img,
                     quantity := JNum.num 1 }]) ∧
    ((∀ l ∈ cart, l.id ≠ p.id) → 1 ≤ N →
      ((addToCart p)^[N] cart).countP (fun l => l.id == p.id) = 1 ∧
      ((addToCart p)^[N] cart).find? (fun l => l.id == p.id)
        = some { id := p.id, name := p.name, price := p.price, img := p.img,
                 quantity := JNum.num (N : ℚ) }) := by
  refine ⟨?_, ?_, ?_⟩
  · intro h
    rw [addToCart_of_mem p cart h]
    exact mutateFirst_eq_map p.id _ cart hu
  · intro h
    exact addToCart_of_fresh p cart h
  · intro h hN
    obtain ⟨M, rfl⟩ : ∃ M, N = M + 1 := ⟨N - 1, (Nat.succ_pred_eq_of_pos hN).symm⟩
    rw [addToCart_iterate_fresh p cart h M]
    constructor
    · rw [List.countP_append]
      have h0 : cart.countP (fun l => l.id == p.id) = 0 :=
        List.countP_eq_zero.mpr (fun l hl => by simp [h l hl])
      rw [h0]
      simp [List.countP_cons]
    · rw [List.find?_append]
      have h1 : cart.find? (fun l => l.id == p.id) = none :=
        List.find?_eq_none.mpr (fun l hl => by simp [h l hl])
      rw [h1]
      simp [List.find?]

/-- Claim C2 witness: a concrete instance — on the empty cart, adding
`sampleProduct` twice yields one line with quantity 2. -/
theorem c2_addToCart_witness :
    UniqueIds [] ∧
    (((∃ l ∈ ([] : List CartLine), l.id = sampleProduct.id) →
      addToCart sampleProduct []
        = List.map (fun l =>
            if l.id = sampleProduct.id
            then { l with quantity := l.quantity.add (JNum.num 1) } else l) []) ∧
    ((∀ l ∈ ([] : List CartLine), l.id ≠ sampleProduct.id) →
      addToCart sampleProduct []
        = [] ++ [{ id := sampleProduct.id, name := sampleProduct.name,
                   price := sampleProduct.price, img := sampleProduct.img,
                   quantity := JNum.num 1 }]) ∧
    ((∀ l ∈ ([] : List CartLine), l.id ≠ sampleProduct.id) → 1 ≤ 2 →
      ((addToCart sampleProduct)^[2] []).countP (fun l => l.id == sampleProduct.id) = 1 ∧
      ((addToCart sampleProduct)^[2] []).find? (fun l => l.id == sampleProduct.id)
        = some { id := sampleProduct.id, name := sampleProduct.name,
                 price := sampleProduct.price, img := sampleProduct.img,
                 quantity := JNum.num ((2 : ℕ) : ℚ) })) :=
  ⟨by simp [UniqueIds], c2_addToCart_spec [] sampleProduct 2 (by simp [UniqueIds])⟩

/-- Claim C3: `updateQuantity(pid, q)` with `q < 1` removes the line with
that id entirely; with `q ≥ 1` it overwrites the matching line's quantity
with `q`; and with `q ≥ 1` and `pid` absent the cart is unchanged. -/
theorem c3_updateQuantity_spec (cart : List CartLine) (pid : String) (q : ℚ)
    (hu : UniqueIds cart) :
    (q < 1 → updateQuantity pid (JNum.num q) cart = cart.filter (fun l => l.id != pid)) ∧
    (1 ≤ q → updateQuantity pid (JNum.num q) cart
      = cart.map (fun l => if l.id = pid then { l with quantity := JNum.num q } else l)) ∧
    (1 ≤ q → (∀ l ∈ cart, l.id ≠ pid) → updateQuantity pid (JNum.num q) cart = cart) := by
  refine ⟨?_, ?_, ?_⟩
  · intro hq
    simp [updateQuantity, JNum.lt, hq]
  · intro hq
    have hlt : JNum.lt (JNum.num q) (JNum.num 1) = false := by
      simp [JNum.lt]
      linarith
    simp only [updateQuantity, hlt, Bool.false_eq_true, if_false]
    exact mutateFirst_eq_map pid _ cart hu
  · intro hq hfresh
    have hlt : JNum.lt (JNum.num q) (JNum.num 1) = false := by
      simp [JNum.lt]
      linarith
    simp only [updateQuantity, hlt, Bool.false_eq_true, if_false]
    exact mutateFirst_of_not_mem pid _ cart hfresh

/-- Claim C3 witness: concrete instances on a one-line cart — quantity 0
removes the line, quantity 3 on an absent id leaves the cart unchanged. -/
theorem c3_updateQuantity_witness :
    UniqueIds [sampleLine] ∧
    ((0 : ℚ) < 1 → updateQuantity "p1" (JNum.num 0) [sampleLine]
      = List.filter (fun l => l.id != "p1") [sampleLine]) ∧
    ((1 : ℚ) ≤ 3 → (∀ l ∈ [sampleLine], l.id ≠ "absent") →
      updateQuantity "absent" (JNum.num 3) [sampleLine] = [sampleLine]) :=
  ⟨by simp [UniqueIds],
   (c3_updateQuantity_spec [sampleLine] "p1" 0 (by simp [UniqueIds])).1,
   (c3_updateQuantity_spec [sampleLine] "absent" 3 (by simp [UniqueIds])).2.2⟩

theorem uniqueIds_filter (cart : List CartLine) (pred : CartLine → Bool)
    (hu : UniqueIds cart) : UniqueIds (cart.filter pred) := by
  unfold UniqueIds at *
  exact List.Nodup.sublist (List.Sublist.map CartLine.id (List.filter_sublist cart)) hu

theorem uniqueIds_mutateFirst (pid : String) (f : CartLine → CartLine)
    (hf : ∀ l, (f l).id = l.id) (cart : List CartLine) (hu : UniqueIds cart) :
    UniqueIds (mutateFirst pid f cart) := by
  unfold UniqueIds at *
  rw [mutateFirst_map_id pid f hf cart]
  exact hu

/-- Claim C4: the at-most-one-line-per-id invariant is preserved by
`addToCart`, `updateQuantity`, `removeItemFromCart`, and by `clearCart`
(whose subsequent load yields the empty cart). -/
theorem c4_unique_ids_preserved (cart : List CartLine) (p : Product) (pid : String)
    (q : JNum) (w : World) (hu : UniqueIds cart) :
    UniqueIds (addToCart p cart) ∧
    UniqueIds (updateQuantity pid q cart) ∧
    UniqueIds (removeItemFromCart pid cart) ∧
    (∀ c, getCart (clearCartOp w).1.store.nassimStitchesCart = GetCartResult.list c →
      UniqueIds c) := by
  refine ⟨?_, ?_, ?_, ?_⟩
  · by_cases hmem : ∃ l ∈ cart, l.id = p.id
    · rw [addToCart_of_mem p cart hmem]
      exact uniqueIds_mutateFirst p.id
        (fun item => { item with quantity := item.quantity.add (JNum.num 1) })
        (fun l => rfl) cart hu
    · push_neg at hmem
      rw [addToCart_of_fresh p cart hmem]
      unfold UniqueIds at *
      rw [List.map_append, List.nodup_append]
      refine ⟨hu, by simp, ?_⟩
      intro a ha hb
      simp at hb
      obtain ⟨l, hl, hla⟩ := List.mem_map.mp ha
      exact hmem l hl (by rw [hla, hb])
  · cases hlt : JNum.lt q (JNum.num 1) with
    | true =>
        simp only [updateQuantity, hlt, if_true]
        exact uniqueIds_filter cart _ hu
    | false =>
        simp only [updateQuantity, hlt, Bool.false_eq_true, if_false]
        exact uniqueIds_mutateFirst pid
          (fun item => { item with quantity := q }) (fun l => rfl) cart hu
  · exact uniqueIds_filter cart _ hu
  · intro c hc
    simp [clearCartOp, getCart] at hc
    rw [hc]
    simp [UniqueIds]

/-- Claim C4 witness: the invariant holds after each operation applied to a
concrete one-line cart. -/
theorem c4_unique_ids_witness :
    UniqueIds [sampleLine] ∧
    UniqueIds (addToCart sampleProduct [sampleLine]) ∧
    UniqueIds (updateQuantity "p1" (JNum.num 5) [sampleLine]) ∧
    UniqueIds (removeItemFromCart "p1" [sampleLine]) :=
  ⟨by simp [UniqueIds],
   (c4_unique_ids_preserved [sampleLine] sampleProduct "p1" (JNum.num 5)
      sampleWorld (by simp [UniqueIds])).1,
   (c4_unique_ids_preserved [sampleLine] sampleProduct "p1" (JNum.num 5)
      sampleWorld (by simp [UniqueIds])).2.1,
   (c4_unique_ids_preserved [sampleLine] sampleProduct "p1" (JNum.num 5)
      sampleWorld (by simp [UniqueIds])).2.2.1⟩

theorem cartTotalItems_foldl_wf (cart : List CartLine)
    (h : ∀ l ∈ cart, l.quantity.isPosInt = true) :
    ∀ a : ℚ, ∃ s : ℚ,
      cart.foldl (fun sum item => sum.add item.quantity) (JNum.num a) = JNum.num s ∧ a ≤ s := by
  induction cart with
  | nil => intro a; exact ⟨a, rfl, le_refl a⟩
  | cons i t ih =>
      intro a
      have hi := h i (by simp)
      obtain ⟨qi, hqi, hqi1⟩ : ∃ qi : ℚ, i.quantity = JNum.num qi ∧ 1 ≤ qi := by
        cases hq : i.quantity with
        | num qi =>
            refine ⟨qi, rfl, ?_⟩
            rw [hq] at hi
            simp [JNum.isPosInt] at hi
            exact hi.1
        | nan =>
            rw [hq] at hi
            simp [JNum.isPosInt] at hi
      obtain ⟨s, hs, has⟩ := ih (fun l hl => h l (by simp [hl])) (a + qi)
      refine ⟨s, ?_, ?_⟩
      · simpa [hqi, JNum.add] using hs
      · linarith

theorem cartTotalItems_wf (cart : List CartLine)
    (h : ∀ l ∈ cart, l.quantity.isPosInt = true) :
    ∃ s : ℚ, cartTotalItems cart = JNum.num s ∧ 0 ≤ s :=
  cartTotalItems_foldl_wf cart h 0

/-- Claim C5: `updateCartCount` gives every badge target the same update:
the badge is hidden exactly when the quantity sum is 0; when visible, its
text shows the sum; while hidden, its previous text is left in place. -/
theorem c5_badge_spec (cart : List CartLine) (badges : List Badge) (b : Badge)
    (h : ∀ l ∈ cart, l.quantity.isPosInt = true) (hb : b ∈ badges) :
    updateBadge cart b ∈ updateCartCount cart badges ∧
    ((updateBadge cart b).visible = false ↔ cartTotalItems cart = JNum.num 0) ∧
    ((updateBadge cart b).visible = true →
      (updateBadge cart b).text = (cartTotalItems cart).render) ∧
    ((updateBadge cart b).visible = false → (updateBadge cart b).text = b.text) := by
  obtain ⟨s, hs, h0⟩ := cartTotalItems_wf cart h
  have hmem : updateBadge cart b ∈ updateCartCount cart badges :=
    List.mem_map_of_mem _ hb
  by_cases hpos : (0 : ℚ) < s
  · have hlt : JNum.lt (JNum.num 0) (JNum.num s) = true := by
      simp [JNum.lt]
      exact hpos
    have hne : s ≠ 0 := ne_of_gt hpos
    refine ⟨hmem, ?_, ?_, ?_⟩
    · simp [updateBadge, hs, hlt, hne]
    · intro _
      simp [updateBadge, hs, hlt]
    · intro hv
      simp [updateBadge, hs, hlt] at hv
  · have hs0 : s = 0 := le_antisymm (not_lt.mp hpos) h0
    subst hs0
    have hlt : JNum.lt (JNum.num 0) (JNum.num 0) = false := by
      simp [JNum.lt]
    refine ⟨hmem, ?_, ?_, ?_⟩
    · simp [updateBadge, hs, hlt]
    · intro hv
      simp [updateBadge, hs, hlt] at hv
    · intro _
      simp [updateBadge, hs, hlt]

/-- Claim C5 witness: a concrete instance on a one-line cart with one badge
target. -/
theorem c5_badge_witness :
    (∀ l ∈ [sampleLine], l.quantity.isPosInt = true) ∧
    sampleBadge ∈ [sampleBadge] ∧
    (updateBadge [sampleLine] sampleBadge ∈ updateCartCount [sampleLine] [sampleBadge] ∧
     ((updateBadge [sampleLine] sampleBadge).visible = false ↔
       cartTotalItems [sampleLine] = JNum.num 0) ∧
     ((updateBadge [sampleLine] sampleBadge).visible = true →
       (updateBadge [sampleLine] sampleBadge).text = (cartTotalItems [sampleLine]).render) ∧
     ((updateBadge [sampleLine] sampleBadge).visible = false →
       (updateBadge [sampleLine] sampleBadge).text = sampleBadge.text)) :=
  ⟨by decide, by simp,
   c5_badge_spec [sampleLine] [sampleBadge] sampleBadge (by decide) (by simp)⟩

/-- Claim C7: in the removal gate, activating a remove control only records
that id as the pending target (overwriting any previous one) without
touching the cart; Confirm removes exactly the pending target and resets
the gate; Cancel and Dismiss reset the gate with the cart untouched; no
event other than Confirm ever changes the cart. -/
theorem c7_gate_spec (s : GateState) (pid : String) (hpid : pid ≠ "") :
    gateStep s (GateEvent.removeClick pid)
      = { s with pending := some pid, modalShown := true } ∧
    (gateStep s (GateEvent.removeClick pid)).cart = s.cart ∧
    gateStep { s with pending := some pid } GateEvent.confirmClick
      = { pending := none, modalShown := false, cart := removeItemFromCart pid s.cart } ∧
    gateStep s GateEvent.cancelClick = { s with pending := none, modalShown := false } ∧
    gateStep s GateEvent.closeClick = { s with pending := none, modalShown := false } ∧
    (∀ e, e ≠ GateEvent.confirmClick → (gateStep s e).cart = s.cart) := by
  refine ⟨rfl, rfl, ?_, rfl, rfl, ?_⟩
  · simp [gateStep, hpid]
  · intro e he
    cases e with
    | removeClick pid2 => rfl
    | confirmClick => exact absurd rfl he
    | cancelClick => rfl
    | closeClick => rfl

/-- Claim C7 witness: concrete gate runs on a one-line cart. -/
theorem c7_gate_witness :
    ("p1" : String) ≠ "" ∧
    gateStep { pending := none, modalShown := false, cart := [sampleLine] }
        (GateEvent.removeClick "p1")
      = { pending := some "p1", modalShown := true, cart := [sampleLine] } ∧
    gateStep { pending := some "p1", modalShown := false, cart := [sampleLine] }
        GateEvent.confirmClick
      = { pending := none, modalShown := false, cart := removeItemFromCart "p1" [sampleLine] } :=
  ⟨by decide,
   (c7_gate_spec { pending := none, modalShown := false, cart := [sampleLine] }
      "p1" (by decide)).1,
   (c7_gate_spec { pending := none, modalShown := false, cart := [sampleLine] }
      "p1" (by decide)).2.2.1⟩

/-- Claim C8: `clearCart` deletes both the cart key and the order-details
key outright (the cart slot is absent, not an empty-array write), recomputes
the badge, and a subsequent load yields the empty collection. -/
theorem c8_clearCart_spec (w : World) :
    (clearCartOp w).1.store.nassimStitchesCart = StoredCart.absent ∧
    (clearCartOp w).1.store.nassimStitchesCart ≠ StoredCart.arr [] ∧
    (clearCartOp w).1.store.orderDetails = none ∧
    getCart (clearCartOp w).1.store.nassimStitchesCart = GetCartResult.list [] ∧
    (clearCartOp w).2 = [Call.updateCartCount] ∧
    (clearCartOp w).1.badge = updateBadge [] w.badge := by
  exact ⟨rfl, by simp [clearCartOp], rfl, rfl, rfl, rfl⟩

/-- Claim C9 counterexample: `clearCart` does not re-persist the cart via
`saveCart` — its only helper call is `updateCartCount` — and mutations never
re-derive the checkout summary (`addToCart` on a concrete world invokes only
`saveCart`, `updateCartCount` and `showToast`). -/
theorem c9_counterexample :
    Call.saveCart ∉ (clearCartOp sampleWorld).2 ∧
    (addToCartOp sampleProduct sampleWorld).map Prod.snd
      = some [Call.saveCart, Call.updateCartCount, Call.showToast] ∧
    Call.initCheckoutPage ∉ (clearCartOp sampleWorld).2 := by
  exact ⟨by decide, rfl, by decide⟩

/-- Claim C9 (amended): `addToCart` re-persists via `saveCart` (which also
re-derives the badge from the just-persisted cart) and additionally shows a
toast; `updateQuantity` and `removeItemFromCart` re-persist via `saveCart`
and re-render the cart-page view; `clearCart` instead deletes the keys
directly — never calling `saveCart` — and re-derives only the badge; no
operation re-derives the checkout summary. -/
theorem c9_resync_amended (w : World) (cart : List CartLine) (p : Product)
    (pid : String) (q : JNum)
    (h : getCart w.store.nassimStitchesCart = GetCartResult.list cart) :
    addToCartOp p w
      = some (saveCartOp (addToCart p cart) w,
          [Call.saveCart, Call.updateCartCount, Call.showToast]) ∧
    updateQuantityOp pid q w
      = some (saveCartOp (updateQuantity pid q cart) w,
          [Call.saveCart, Call.updateCartCount, Call.initCartPage]) ∧
    removeItemFromCartOp pid w
      = some (saveCartOp (removeItemFromCart pid cart) w,
          [Call.saveCart, Call.updateCartCount, Call.initCartPage, Call.showToast]) ∧
    (clearCartOp w).2 = [Call.updateCartCount] ∧
    Call.saveCart ∉ (clearCartOp w).2 ∧
    (saveCartOp (addToCart p cart) w).store.nassimStitchesCart
      = StoredCart.arr (addToCart p cart) ∧
    (saveCartOp (addToCart p cart) w).badge = updateBadge (addToCart p cart) w.badge := by
  refine ⟨?_, ?_, ?_, rfl, by simp [clearCartOp], rfl, rfl⟩ <;>
    simp [addToCartOp, updateQuantityOp, removeItemFromCartOp, h]

/-- Claim C9 witness: the amended behavior at a concrete world holding an
empty serialized cart. -/
theorem c9_resync_witness :
    getCart sampleWorld.store.nassimStitchesCart = GetCartResult.list [] ∧
    addToCartOp sampleProduct sampleWorld
      = some (saveCartOp (addToCart sampleProduct []) sampleWorld,
          [Call.saveCart, Call.updateCartCount, Call.showToast]) ∧
    (clearCartOp sampleWorld).2 = [Call.updateCartCount] :=
  ⟨rfl,
   (c9_resync_amended sampleWorld [] sampleProduct "p1" (JNum.num 1) rfl).1,
   (c9_resync_amended sampleWorld [] sampleProduct "p1" (JNum.num 1) rfl).2.2.2.1⟩

/-- Claim C10: `updateQuantity(pid, NaN)` on a cart containing `pid` neither
removes the line nor errors: `NaN < 1` is false, so the line's quantity is
overwritten with `NaN`, the cart keeps its length, and the `NaN` quantity is
persisted by `saveCart`. -/
theorem c10_nan_quantity_spec (cart : List CartLine) (pid : String) (w : World)
    (hu : UniqueIds cart) (hmem : ∃ l ∈ cart, l.id = pid)
    (hw : getCart w.store.nassimStitchesCart = GetCartResult.list cart) :
    updateQuantity pid JNum.nan cart
      = cart.map (fun l => if l.id = pid then { l with quantity := JNum.nan } else l) ∧
    (updateQuantity pid JNum.nan cart).length = cart.length ∧
    (∃ l ∈ updateQuantity pid JNum.nan cart, l.id = pid ∧ l.quantity = JNum.nan) ∧
    (updateQuantityOp pid JNum.nan w).map (fun r => r.1.store.nassimStitchesCart)
      = some (StoredCart.arr (updateQuantity pid JNum.nan cart)) := by
  have hlt : JNum.lt JNum.nan (JNum.num 1) = false := rfl
  have hmap : updateQuantity pid JNum.nan cart
      = cart.map (fun l => if l.id = pid then { l with quantity := JNum.nan } else l) := by
    simp only [updateQuantity, hlt, Bool.false_eq_true, if_false]
    exact mutateFirst_eq_map pid _ cart hu
  refine ⟨hmap, ?_, ?_, ?_⟩
  · rw [hmap, List.length_map]
  · obtain ⟨l, hl, hid⟩ := hmem
    refine ⟨{ l with quantity := JNum.nan }, ?_, hid, rfl⟩
    rw [hmap]
    have hfl : ({ l with quantity := JNum.nan } : CartLine)
        = (fun l => if l.id = pid then { l with quantity := JNum.nan } else l) l := by
      simp [hid]
    rw [hfl]
    exact List.mem_map_of_mem _ hl
  · simp [updateQuantityOp, saveCartOp, hw]

/-- Claim C10 witness: the `NaN` update at a concrete one-line cart. -/
theorem c10_nan_quantity_witness :
    UniqueIds [sampleLine] ∧
    (∃ l ∈ [sampleLine], l.id = "p1") ∧
    (∃ l ∈ updateQuantity "p1" JNum.nan [sampleLine], l.id = "p1" ∧ l.quantity = JNum.nan) :=
  ⟨by simp [UniqueIds],
   ⟨sampleLine, by simp, rfl⟩,
   (c10_nan_quantity_spec [sampleLine] "p1"
      { store := { nassimStitchesCart := StoredCart.arr [sampleLine], orderDetails := none },
        badge := sampleBadge }
      (by simp [UniqueIds]) ⟨sampleLine, by simp, rfl⟩ rfl).2.2.1⟩

end NassimStitches
